import Mathlib

/-!
Shallow embedding of the asynchronous write queue implemented in
`src/openvdb/io/Queue.cc` (namespace `openvdb::io`), together with proofs of
the specification claims about it.

Modelling conventions:

* `Index32` (a `uint32_t`, see `src/openvdb/Types.h`) is modelled as `Nat`;
  the two post-increment counters (`mNextId`, `mNextNotifierId`) wrap modulo
  `2^32` exactly where the C++ increment can wrap.
* `std::atomic<Int32> mNumTasks` is modelled as an `Int` holding the signed
  value of the 32-bit two's-complement pattern: every increment and
  decrement passes through `wrap32`, so `Int32` overflow wraps exactly as
  in the source (`++` past `2^31 - 1` yields `-2^31`, and so on).
* The status map (`std::unordered_map<QId, Status>` in the non-TBB build,
  `tbb::concurrent_hash_map` otherwise) is modelled as an association list
  with map semantics: `insert` replaces the binding of a key, `erase`
  removes every binding of a key (a real map holds each key at most once,
  so erasing the found entry and filtering coincide).
* The notifier registry `std::map<QId, Notifier>` iterates its entries in
  ascending key order, so it is modelled as a key list kept sorted by an
  ordered insert; callback values are opaque, and a fan-out is modelled as
  the list of `NotifyEvent`s it produces (which observer was invoked, with
  which task id and status).
* `Archive` is an external collaborator: the queue only ever calls
  `archive.copy()` and `archivePtr->write(grids, metadata)`, and `write`
  either returns or throws.  An archive is therefore modelled by the
  behaviour of its `write` member: a function from the stored grids and
  metadata to a `WriteOutcome` (success, a `std::exception` carrying an
  optional message, or any other thrown object).  Grids and metadata are
  opaque to the queue and are modelled by stand-in types.
* C++ exceptions are modelled with `Except`: a function that can throw
  returns `Except IoError _`; a function modelled with a plain (non-`Except`)
  result type is one out of which no exception propagates.
* The enum `Queue::Status` and the constants `DEFAULT_CAPACITY` and
  `DEFAULT_TIMEOUT` are declared in `Queue.h`, which is not part of the
  sources; the four enumerators are fully determined by their uses in
  `Queue.cc`, and the two default values are left as parameters (the
  constructor overwrites the capacity anyway).
-/

/-- `Queue::Status` (declared in `Queue.h`, used throughout `Queue.cc`). -/
inductive Status where
  | UNKNOWN
  | PENDING
  | SUCCEEDED
  | FAILED
deriving DecidableEq, Repr

/-- Task and notifier identifiers: `Queue::Id` is `Index32` (`uint32_t`). -/
abbrev QId := Nat

/-- Opaque stand-in for `GridBase::ConstPtr`: the queue never inspects a
grid, it only forwards the collection to the archive. -/
abbrev GridCPtr := Nat

/-- `GridCPtrVec`: a vector of grid pointers. -/
abbrev GridCPtrVec := List GridCPtr

/-- Opaque stand-in for `MetaMap`: forwarded verbatim to the archive. -/
abbrev MetaMap := Nat

/-- Outcome of one call to `Archive::write(grids, metadata)`: it either
returns normally, throws a `std::exception` (whose `what()` may be null),
or throws some other object (caught by `catch (...)`). -/
inductive WriteOutcome where
  | ok
  | stdError (msg : Option String)
  | otherError
deriving DecidableEq, Repr

/-- External `Archive` collaborator, modelled by the behaviour of its
`write` member; `copy()` yields an independent archive with the same
behaviour. -/
structure Archive where
  write : GridCPtrVec → MetaMap → WriteOutcome

/-- `Archive::copy()`: an independent clone with identical write behaviour. -/
def Archive.copy (a : Archive) : Archive := a

/-- The error thrown by `Impl::enqueue` via `OPENVDB_THROW(RuntimeError, ...)`. -/
inductive IoError where
  | runtimeError (msg : String)
deriving DecidableEq, Repr

/-- Association-list lookup, the model of `map.find(id)`. -/
def smFind : List (QId × Status) → QId → Option Status
  | [], _ => none
  | (k, v) :: rest, id => if k = id then some v else smFind rest id

/-- Map erase: removes the binding of `id` (`map.erase`; a map holds each
key at most once, so this filter is the erase of the found entry). -/
def smErase (m : List (QId × Status)) (id : QId) : List (QId × Status) :=
  m.filter (fun p => p.1 ≠ id)

/-- Map assignment `m[id] = st`: replaces any previous binding of `id`. -/
def smInsert (m : List (QId × Status)) (id : QId) (st : Status) : List (QId × Status) :=
  (id, st) :: smErase m id

/-- Ordered insert into the key list of a `std::map` (which keeps its
entries sorted by key); inserting an existing key only replaces its value. -/
def nmInsert : List QId → QId → List QId
  | [], k => [k]
  | x :: xs, k =>
    if k < x then k :: x :: xs
    else if k = x then x :: xs
    else x :: nmInsert xs k

/-- Two's-complement wraparound of a 32-bit signed integer: maps any
integer to the signed value, in `[-2^31, 2^31)`, of its low 32 bits.  Every
write to the `std::atomic<Int32>` counter goes through this. -/
def wrap32 (n : Int) : Int := (n + 2 ^ 31) % 2 ^ 32 - 2 ^ 31

/-- One observer invocation performed during completion fan-out: which
registered notifier was called, with which task id and status. -/
structure NotifyEvent where
  notifierId : QId
  taskId : QId
  status : Status
deriving DecidableEq, Repr

/-- The state of `Queue::Impl` (Queue.cc lines 138-262).  The notifier
registry is represented by its sorted key list, callback values being
opaque (every registered callback is a client observer). -/
structure QImpl where
  mTimeout : Nat
  mCapacity : Nat
  mNumTasks : Int
  mNextId : Nat
  mStatus : List (QId × Status)
  mNotifiers : List QId
  mNextNotifierId : Nat
deriving DecidableEq, Repr

/-- `Impl::Impl()`: `mTimeout = DEFAULT_TIMEOUT`, `mCapacity =
DEFAULT_CAPACITY` (both declared in `Queue.h`, hence parameters here),
counters start at 1, `mNumTasks` zero-initialized, both maps empty. -/
def QImpl.init (defaultTimeout defaultCapacity : Nat) : QImpl where
  mTimeout := defaultTimeout
  mCapacity := defaultCapacity
  mNumTasks := 0
  mNextId := 1
  mStatus := []
  mNotifiers := []
  mNextNotifierId := 1

/-- `Impl::setStatus(id, status)`: `mStatus[id] = status`. -/
def QImpl.setStatus (q : QImpl) (id : QId) (st : Status) : QImpl :=
  { q with mStatus := smInsert q.mStatus id st }

/-- `Impl::setStatusWithNotification(id, status)` (Queue.cc lines 177-219):
update the status map, fan the event out to every registered notifier (the
`std::map` iteration visits keys in ascending order), then, if the status
is terminal, erase the entry when at least one notifier was invoked and
decrement `mNumTasks` unconditionally.  Returns the new state and the list
of observer invocations performed. -/
def QImpl.setStatusWithNotification (q : QImpl) (id : QId) (st : Status) :
    QImpl × List NotifyEvent :=
  let completed := st = Status.SUCCEEDED ∨ st = Status.FAILED
  let q1 := q.setStatus id st
  let didNotify := !q1.mNotifiers.isEmpty
  let events := q1.mNotifiers.map (fun nid => ⟨nid, id, st⟩)
  let q2 :=
    if completed then
      let q15 := if didNotify then { q1 with mStatus := smErase q1.mStatus id } else q1
      { q15 with mNumTasks := wrap32 (q15.mNumTasks - 1) }
    else q1
  (q2, events)

/-- `Impl::canEnqueue()`: `mNumTasks < Int64(mCapacity)`. -/
def QImpl.canEnqueue (q : QImpl) : Prop := q.mNumTasks < (q.mCapacity : Int)

instance (q : QImpl) : Decidable q.canEnqueue := by
  unfold QImpl.canEnqueue; infer_instance

/-- The message of the `RuntimeError` thrown on admission timeout. -/
def timeoutErrorMsg (timeout : Nat) : IoError :=
  IoError.runtimeError
    ("unable to queue I/O task; " ++ toString timeout ++ "-second time limit expired")

/-- The admission-wait loop body of `Impl::enqueue` (Queue.cc lines
229-237), as executed when capacity never becomes available (in particular
whenever no concurrent task completion can occur): each iteration sleeps
500 ms and then throws iff `duration_cast<seconds>(elapsed).count() >
mTimeout`, where the elapsed time after `n` sleeps is `500 * n` ms and
`duration_cast` truncates to whole seconds.  Returns the number of sleep
iterations executed when the throw fires (`none` if the fuel runs out
first). -/
def enqueuePollLoop (timeout : Nat) : Nat → Nat → Option Nat
  | 0, _ => none
  | fuel + 1, sleeps =>
    let s := sleeps + 1
    if 500 * s / 1000 > timeout then some s
    else enqueuePollLoop timeout fuel s

/-- Number of 500 ms sleeps a submission that finds the queue at capacity
(and is never released by a concurrent completion) performs before the
admission error is raised. -/
def sleepsBeforeAdmissionError (timeout : Nat) : Option Nat :=
  enqueuePollLoop timeout (2 * timeout + 2) 0

/-- A queued task (`OutputTask`, Queue.cc lines 98-129): owns its id, the
grids, an archive clone and the metadata.  `mNotify` records whether a
notifier has been bound by `setNotifier` (the `std::function` is empty
until then; in the queue flow it is always `Impl::setStatusWithNotification`). -/
structure OutputTask where
  mId : QId
  mGrids : GridCPtrVec
  mArchive : Archive
  mMetadata : MetaMap
  mNotify : Bool

/-- `Queue::writeGridVec` constructs the task with no notifier bound yet. -/
def OutputTask.make (id : QId) (grids : GridCPtrVec) (archive : Archive)
    (metadata : MetaMap) : OutputTask :=
  { mId := id, mGrids := grids, mArchive := archive.copy, mMetadata := metadata,
    mNotify := false }

/-- `Task::setNotifier(notifier)`: binds the completion callback. -/
def OutputTask.setNotifier (t : OutputTask) : OutputTask :=
  { t with mNotify := true }

/-- Result of `OutputTask::execute` (Queue.cc lines 109-123): the
notifications performed via `Task::notify` (which calls `mNotify(id, st)`
only when a notifier is bound) and the message logged, if any.  `execute`
is modelled as a total function with a plain result type: every thrown
error is caught inside it (`catch (std::exception&)` logs `e.what()` when
non-null; `catch (...)` logs nothing), so no exception propagates out. -/
structure ExecResult where
  notified : List (QId × Status)
  log : Option String
deriving DecidableEq, Repr

/-- `OutputTask::execute`: `status` starts as `FAILED`, the write is
attempted, success sets `SUCCEEDED`, any throw is caught (a
`std::exception` message is logged best-effort), then `notify(status)`
fires. -/
def OutputTask.execute (t : OutputTask) : ExecResult :=
  let r :=
    match t.mArchive.write t.mGrids t.mMetadata with
    | WriteOutcome.ok => (Status.SUCCEEDED, (none : Option String))
    | WriteOutcome.stdError msg => (Status.FAILED, msg)
    | WriteOutcome.otherError => (Status.FAILED, none)
  { notified := if t.mNotify then [(t.mId, r.1)] else [], log := r.2 }

/-- Interpret the notifications a task performed: each one is a call into
the bound `Impl::setStatusWithNotification`. -/
def applyNotifications (q : QImpl) : List (QId × Status) → QImpl × List NotifyEvent
  | [] => (q, [])
  | (id, st) :: rest =>
    let r1 := q.setStatusWithNotification id st
    let r2 := applyNotifications r1.1 rest
    (r2.1, r1.2 ++ r2.2)

/-- `Impl::enqueue(task)` in the synchronous (non-TBB) build (Queue.cc
lines 223-249): if the queue is at capacity the poll loop can only end in
the timeout throw (no concurrent completion can free capacity in this
build, so `canEnqueue` is stable during the wait; the sleep accounting is
`enqueuePollLoop`).  Otherwise bind the notifier, stamp the task PENDING,
run `task.execute()` inline, and finally increment `mNumTasks`. -/
def QImpl.enqueueSync (q : QImpl) (task : OutputTask) :
    Except IoError (QImpl × List NotifyEvent) :=
  if q.canEnqueue then
    let task1 := task.setNotifier
    let q1 := q.setStatus task1.mId Status.PENDING
    let r := task1.execute
    let a := applyNotifications q1 r.notified
    Except.ok ({ a.1 with mNumTasks := wrap32 (a.1.mNumTasks + 1) }, a.2)
  else
    Except.error (timeoutErrorMsg q.mTimeout)

/-- `Queue::writeGridVec` in the synchronous build (Queue.cc lines
371-395): allocate `taskId = mNextId++` (an `Index32` post-increment, so
modulo `2^32`), construct the task, try to enqueue it; an enqueue failure
is rethrown with the identifier already consumed.  Returns the new state,
the observer invocations performed, and either the task id or the error. -/
def QImpl.writeGridVec (q : QImpl) (grids : GridCPtrVec) (archive : Archive)
    (metadata : MetaMap) : QImpl × List NotifyEvent × Except IoError QId :=
  let taskId := q.mNextId
  let q1 := { q with mNextId := (q.mNextId + 1) % 2 ^ 32 }
  let task := OutputTask.make taskId grids archive metadata
  match q1.enqueueSync task with
  | Except.ok (q2, events) => (q2, events, Except.ok taskId)
  | Except.error e => (q1, [], Except.error e)

/-- `Queue::writeGrid(grid, archive, metadata)` (Queue.cc lines 364-368):
`writeGridVec(GridCPtrVec(1, grid), archive, metadata)`. -/
def QImpl.writeGrid (q : QImpl) (grid : GridCPtr) (archive : Archive)
    (metadata : MetaMap) : QImpl × List NotifyEvent × Except IoError QId :=
  q.writeGridVec [grid] archive metadata

/-- `Queue::Queue(Index32 capacity)` (Queue.cc lines 268-271): builds the
default-initialized `Impl`, then overwrites `mCapacity` with the argument
unchanged. -/
def QImpl.construct (defaultTimeout defaultCapacity capacity : Nat) : QImpl :=
  { QImpl.init defaultTimeout defaultCapacity with mCapacity := capacity }

/-- `Queue::size()`: `Index32(std::max<Int32>(0, mNumTasks))`. -/
def QImpl.size (q : QImpl) : Nat := (max 0 q.mNumTasks).toNat

/-- `Queue::empty()`: `mNumTasks == 0`. -/
def QImpl.empty (q : QImpl) : Bool := q.mNumTasks = 0

/-- `Queue::capacity()`. -/
def QImpl.capacity (q : QImpl) : Nat := q.mCapacity

/-- `Queue::setCapacity(n)`: `mCapacity = std::max<Index32>(1, n)`. -/
def QImpl.setCapacity (q : QImpl) (n : Nat) : QImpl :=
  { q with mCapacity := max 1 n }

/-- `Queue::timeout()`. -/
def QImpl.timeout (q : QImpl) : Nat := q.mTimeout

/-- `Queue::setTimeout(sec)`. -/
def QImpl.setTimeout (q : QImpl) (sec : Nat) : QImpl :=
  { q with mTimeout := sec }

/-- `Queue::status(id)` (Queue.cc lines 310-329): look the id up; when an
entry exists return its status, erasing the entry first when the status is
terminal; otherwise return `UNKNOWN`.  Returns the answer and the
(possibly updated) state. -/
def QImpl.statusQuery (q : QImpl) (id : QId) : Status × QImpl :=
  match smFind q.mStatus id with
  | some st =>
    if st = Status.SUCCEEDED ∨ st = Status.FAILED then
      (st, { q with mStatus := smErase q.mStatus id })
    else (st, q)
  | none => (Status.UNKNOWN, q)

/-- `Queue::addNotifier(notify)` (Queue.cc lines 332-339): allocate
`id = mNextNotifierId++` (`Index32` post-increment) and insert the callback
under that key.  Returns the subscription id and the new state. -/
def QImpl.addNotifier (q : QImpl) : QId × QImpl :=
  let id := q.mNextNotifierId
  (id, { q with
          mNextNotifierId := (q.mNextNotifierId + 1) % 2 ^ 32,
          mNotifiers := nmInsert q.mNotifiers id })

/-- `Queue::removeNotifier(id)` (Queue.cc lines 342-350): erase the entry
if present (each key occurs at most once in a `std::map`). -/
def QImpl.removeNotifier (q : QImpl) (id : QId) : QImpl :=
  { q with mNotifiers := q.mNotifiers.filter (fun k => k ≠ id) }

/-- `Queue::clearNotifiers()` (Queue.cc lines 353-358). -/
def QImpl.clearNotifiers (q : QImpl) : QImpl :=
  { q with mNotifiers := [] }

/-- `Impl::enqueue(task)` in the TBB build: admission check (the poll loop
either exits with `canEnqueue` true or throws), bind the notifier, stamp the
task PENDING, hand the task to the scheduler (`tbb::task::enqueue`), and
increment `mNumTasks`.  Returns the new state and the task now owned by the
scheduler. -/
def QImpl.enqueueTbb (q : QImpl) (task : OutputTask) :
    Except IoError (QImpl × OutputTask) :=
  if q.canEnqueue then
    let task1 := task.setNotifier
    let q1 := q.setStatus task1.mId Status.PENDING
    Except.ok ({ q1 with mNumTasks := wrap32 (q1.mNumTasks + 1) }, task1)
  else
    Except.error (timeoutErrorMsg q.mTimeout)

/-- State of a queue in the TBB build: the `Impl` state plus the tasks that
have been handed to the scheduler and not yet executed. -/
structure TbbState where
  impl : QImpl
  pending : List OutputTask

/-- `Queue::writeGridVec` in the TBB build: allocate `taskId = mNextId++`,
construct the task, try to enqueue it (on failure the task is destroyed and
the exception rethrown, the identifier staying consumed). -/
def TbbState.writeGridVec (s : TbbState) (grids : GridCPtrVec) (archive : Archive)
    (metadata : MetaMap) : TbbState × Except IoError QId :=
  let taskId := s.impl.mNextId
  let q1 := { s.impl with mNextId := (s.impl.mNextId + 1) % 2 ^ 32 }
  let task := OutputTask.make taskId grids archive metadata
  match q1.enqueueTbb task with
  | Except.ok (q2, task1) =>
    ({ impl := q2, pending := s.pending ++ [task1] }, Except.ok taskId)
  | Except.error e => ({ impl := q1, pending := s.pending }, Except.error e)

/-- The scheduler executes the `i`-th pending task: `execute` runs the write
and performs its notification, which calls back into
`Impl::setStatusWithNotification`.  `none` when there is no such task. -/
def TbbState.runPending (s : TbbState) (i : Nat) : Option (TbbState × List NotifyEvent) :=
  match s.pending[i]? with
  | none => none
  | some t =>
    let r := t.execute
    let a := applyNotifications s.impl r.notified
    some ({ impl := a.1, pending := s.pending.eraseIdx i }, a.2)

/-- One caller- or scheduler-level step against the queue: the public
operations of `Queue`, plus the scheduler step that executes a pending task
(TBB build), plus the synchronous-build submission. -/
inductive QueueOp where
  | submitTbb (grids : GridCPtrVec) (archive : Archive) (metadata : MetaMap)
  | submitSync (grids : GridCPtrVec) (archive : Archive) (metadata : MetaMap)
  | runTask (i : Nat)
  | query (id : QId)
  | subscribe
  | unsubscribe (id : QId)
  | clearSubs
  | reconfigureCapacity (n : Nat)
  | reconfigureTimeout (sec : Nat)

/-- A trace state: the queue state together with the ghost counts of tasks
admitted and tasks completed so far. -/
structure TraceState where
  s : TbbState
  admitted : Nat
  completed : Nat

/-- Apply one step.  A submission counts as admitted exactly when it does
not fail with the admission-timeout error; a task counts as completed when
its `execute` has run (for the synchronous build that happens inside the
submit call itself). -/
def applyOp (t : TraceState) : QueueOp → TraceState
  | QueueOp.submitTbb grids archive metadata =>
    let r := t.s.writeGridVec grids archive metadata
    match r.2 with
    | Except.ok _ => { s := r.1, admitted := t.admitted + 1, completed := t.completed }
    | Except.error _ => { s := r.1, admitted := t.admitted, completed := t.completed }
  | QueueOp.submitSync grids archive metadata =>
    let r := t.s.impl.writeGridVec grids archive metadata
    match r.2.2 with
    | Except.ok _ =>
      { s := { impl := r.1, pending := t.s.pending },
        admitted := t.admitted + 1, completed := t.completed + 1 }
    | Except.error _ =>
      { s := { impl := r.1, pending := t.s.pending },
        admitted := t.admitted, completed := t.completed }
  | QueueOp.runTask i =>
    match t.s.runPending i with
    | none => t
    | some (s2, _) => { s := s2, admitted := t.admitted, completed := t.completed + 1 }
  | QueueOp.query id =>
    { t with s := { impl := (t.s.impl.statusQuery id).2, pending := t.s.pending } }
  | QueueOp.subscribe =>
    { t with s := { impl := (t.s.impl.addNotifier).2, pending := t.s.pending } }
  | QueueOp.unsubscribe id =>
    { t with s := { impl := t.s.impl.removeNotifier id, pending := t.s.pending } }
  | QueueOp.clearSubs =>
    { t with s := { impl := t.s.impl.clearNotifiers, pending := t.s.pending } }
  | QueueOp.reconfigureCapacity n =>
    { t with s := { impl := t.s.impl.setCapacity n, pending := t.s.pending } }
  | QueueOp.reconfigureTimeout sec =>
    { t with s := { impl := t.s.impl.setTimeout sec, pending := t.s.pending } }

/-- Run a trace from a freshly constructed queue. -/
def runOps (defaultTimeout defaultCapacity capacity : Nat) (ops : List QueueOp) :
    TraceState :=
  ops.foldl applyOp
    { s := { impl := QImpl.construct defaultTimeout defaultCapacity capacity, pending := [] },
      admitted := 0, completed := 0 }

/-- A sample archive whose write always succeeds. -/
def okArchive : Archive := ⟨fun _ _ => WriteOutcome.ok⟩

/-- A sample archive whose write always throws a `std::exception` with the
message "disk full". -/
def failingArchive : Archive := ⟨fun _ _ => WriteOutcome.stdError (some "disk full")⟩

/-- A sample bound task whose write succeeds. -/
def sampleTaskOk : OutputTask :=
  { mId := 7, mGrids := [1], mArchive := okArchive, mMetadata := 0, mNotify := true }

/-- A sample bound task whose write fails. -/
def sampleTaskBad : OutputTask :=
  { mId := 8, mGrids := [2], mArchive := failingArchive, mMetadata := 0, mNotify := true }

/-- A sample queue state with two registered notifiers and one PENDING task:
reached from a fresh queue (capacity 4, default timeout 0) by two
`addNotifier` calls and one TBB-build submission. -/
def sampleQ : QImpl :=
  (runOps 0 4 4 [QueueOp.subscribe, QueueOp.subscribe,
    QueueOp.submitTbb [1] okArchive 0]).s.impl

/-- A sample queue state holding a terminal, not-yet-polled entry for task
1: a fresh queue (capacity 1, timeout 0) after one TBB-build submission and
its execution with no notifier registered. -/
def sampleDone : QImpl :=
  (runOps 0 1 1 [QueueOp.submitTbb [1] okArchive 0, QueueOp.runTask 0]).s.impl

/-- The terminal status `OutputTask::execute` reports for a given outcome of
the archive write: `SUCCEEDED` on normal return, otherwise the initial
`FAILED` survives the catch blocks. -/
def writeStatus : WriteOutcome → Status
  | WriteOutcome.ok => Status.SUCCEEDED
  | WriteOutcome.stdError _ => Status.FAILED
  | WriteOutcome.otherError => Status.FAILED

/-- The message `OutputTask::execute` logs for a given outcome of the
archive write (`e.what()` of a caught `std::exception` when non-null). -/
def writeLog : WriteOutcome → Option String
  | WriteOutcome.ok => none
  | WriteOutcome.stdError msg => msg
  | WriteOutcome.otherError => none

/-- Bookkeeping invariant tying the queue state to the ghost admission and
completion counts: the in-flight counter equals admitted minus completed
(hence is never negative), the scheduler holds exactly the admitted-but-not-
completed tasks, every scheduled task has its notifier bound, and — because
admission is gated by a capacity that fits in `Int32` — the in-flight count
stays below `2^31`, so the wrapping counter never overflows. -/
def TraceInv (t : TraceState) : Prop :=
  t.completed ≤ t.admitted ∧
  t.s.impl.mNumTasks = (t.admitted : Int) - (t.completed : Int) ∧
  t.s.pending.length = t.admitted - t.completed ∧
  (∀ task ∈ t.s.pending, task.mNotify = true) ∧
  t.admitted - t.completed ≤ 2 ^ 31 - 1 ∧
  t.s.impl.mCapacity ≤ 2 ^ 31 - 1

/-- Capacity restriction under which the `Int32` in-flight counter cannot
wrap: every `setCapacity` argument is at most `Int32` max, `2^31 - 1`
(`setCapacity` coerces 0 to 1, which also satisfies the bound). -/
def CapacityOk : QueueOp → Prop
  | QueueOp.reconfigureCapacity n => n ≤ 2 ^ 31 - 1
  | _ => True

instance : DecidablePred CapacityOk := by
  intro op
  cases op <;> unfold CapacityOk <;> infer_instance

/-- A queue at capacity: fresh queue with capacity 1, timeout 0, filled by
one TBB-build submission (task 1 admitted, still pending). -/
def c1FullState : TbbState := (runOps 0 1 1 [QueueOp.submitTbb [1] okArchive 0]).s

/-- The state after a second submission times out against `c1FullState`. -/
def c1AfterFail : TbbState := (c1FullState.writeGridVec [2] okArchive 0).1

/-- The state after the pending task then runs, freeing capacity. -/
def c1AfterFree : TbbState :=
  ((c1AfterFail.runPending 0).getD ⟨c1AfterFail, []⟩).1

/-- The submission repeated in the C7 counterexample trace. -/
def c7SubmitOp : QueueOp := QueueOp.submitTbb [] okArchive 0

/-- The C7 counterexample trace: configure capacity `2^31` — a legal
`Index32` argument that exceeds `Int32` max — then admit `2^31` tasks
(`canEnqueue` compares the signed counter, always below `2^31`, against
`Int64(mCapacity) = 2^31`, so every admission succeeds). -/
def c7Ops : List QueueOp :=
  QueueOp.reconfigureCapacity (2 ^ 31) :: List.replicate (2 ^ 31) c7SubmitOp

/-- The trace state right after the capacity reconfiguration of `c7Ops`. -/
def c7Start : TraceState :=
  applyOp
    { s := { impl := QImpl.construct 0 1 1, pending := [] },
      admitted := 0,
      completed := 0 }
    (QueueOp.reconfigureCapacity (2 ^ 31))

/-! ## Helper lemmas -/

theorem wrap32_eq_self (n : Int) (h1 : -(2 ^ 31) ≤ n) (h2 : n < 2 ^ 31) :
    wrap32 n = n := by
  unfold wrap32
  omega

theorem wrap32_add (a b : Int) : wrap32 (wrap32 a + b) = wrap32 (a + b) := by
  unfold wrap32
  omega

theorem wrap32_lb (n : Int) : -(2 ^ 31) ≤ wrap32 n := by
  unfold wrap32
  omega

theorem wrap32_lt (n : Int) : wrap32 n < 2 ^ 31 := by
  unfold wrap32
  omega

theorem smFind_smErase (m : List (QId × Status)) (id : QId) :
    smFind (smErase m id) id = none := by
  induction m with
  | nil => rfl
  | cons p rest ih =>
    by_cases h : p.1 = id
    · simpa [smErase, smFind, h] using ih
    · simpa [smErase, smFind, h] using ih

theorem smFind_smInsert (m : List (QId × Status)) (id : QId) (st : Status) :
    smFind (smInsert m id st) id = some st := by
  simp [smInsert, smFind]

theorem execute_notified (t : OutputTask) :
    t.execute.notified =
      if t.mNotify then [(t.mId, writeStatus (t.mArchive.write t.mGrids t.mMetadata))]
      else [] := by
  unfold OutputTask.execute
  cases hw : t.mArchive.write t.mGrids t.mMetadata <;> simp [hw, writeStatus]

theorem execute_log (t : OutputTask) :
    t.execute.log = writeLog (t.mArchive.write t.mGrids t.mMetadata) := by
  unfold OutputTask.execute
  cases hw : t.mArchive.write t.mGrids t.mMetadata <;> simp [hw, writeLog]

theorem writeStatus_terminal (o : WriteOutcome) :
    writeStatus o = Status.SUCCEEDED ∨ writeStatus o = Status.FAILED := by
  cases o <;> simp [writeStatus]

theorem sswn_events (q : QImpl) (id : QId) (st : Status) :
    (q.setStatusWithNotification id st).2 =
      q.mNotifiers.map (fun nid => ⟨nid, id, st⟩) := by
  simp [QImpl.setStatusWithNotification, QImpl.setStatus]

theorem sswn_mNumTasks_terminal (q : QImpl) (id : QId) (st : Status)
    (h : st = Status.SUCCEEDED ∨ st = Status.FAILED) :
    (q.setStatusWithNotification id st).1.mNumTasks = wrap32 (q.mNumTasks - 1) := by
  unfold QImpl.setStatusWithNotification QImpl.setStatus
  simp only []
  rw [if_pos h]
  cases hq : q.mNotifiers.isEmpty <;> simp [hq]

theorem sswn_mStatus_terminal (q : QImpl) (id : QId) (st : Status)
    (h : st = Status.SUCCEEDED ∨ st = Status.FAILED) :
    (q.setStatusWithNotification id st).1.mStatus =
      if q.mNotifiers.isEmpty then smInsert q.mStatus id st
      else smErase (smInsert q.mStatus id st) id := by
  unfold QImpl.setStatusWithNotification QImpl.setStatus
  simp only []
  rw [if_pos h]
  cases hq : q.mNotifiers.isEmpty <;> simp [hq]

theorem sswn_preserves (q : QImpl) (id : QId) (st : Status) :
    (q.setStatusWithNotification id st).1.mNotifiers = q.mNotifiers ∧
    (q.setStatusWithNotification id st).1.mNextId = q.mNextId ∧
    (q.setStatusWithNotification id st).1.mNextNotifierId = q.mNextNotifierId ∧
    (q.setStatusWithNotification id st).1.mTimeout = q.mTimeout ∧
    (q.setStatusWithNotification id st).1.mCapacity = q.mCapacity := by
  unfold QImpl.setStatusWithNotification QImpl.setStatus
  simp only []
  split
  · split <;> simp
  · simp

theorem applyNotifications_single (q : QImpl) (id : QId) (st : Status) :
    applyNotifications q [(id, st)] =
      ((q.setStatusWithNotification id st).1, (q.setStatusWithNotification id st).2) := by
  simp [applyNotifications]

/-! ## Claim C2 -/

/-- C2: for every unit of work, `OutputTask::execute` lets no error escape
(it is modelled as a total, non-`Except` function): when the archive write
returns normally it reports `SUCCEEDED` through its bound notification
sink; when the write throws a `std::exception` it logs the message
best-effort and reports `FAILED`; when the write throws anything else it
reports `FAILED` with nothing to log.  No other observable effect occurs. -/
theorem C2_execute_contains_all_errors (t : OutputTask) (h : t.mNotify = true) :
    (t.mArchive.write t.mGrids t.mMetadata = WriteOutcome.ok →
      t.execute = ⟨[(t.mId, Status.SUCCEEDED)], none⟩) ∧
    (∀ msg, t.mArchive.write t.mGrids t.mMetadata = WriteOutcome.stdError msg →
      t.execute = ⟨[(t.mId, Status.FAILED)], msg⟩) ∧
    (t.mArchive.write t.mGrids t.mMetadata = WriteOutcome.otherError →
      t.execute = ⟨[(t.mId, Status.FAILED)], none⟩) := by
  refine ⟨fun hw => ?_, fun msg hw => ?_, fun hw => ?_⟩ <;>
    unfold OutputTask.execute <;> rw [hw] <;> simp [h]

/-- Witness for C2 at a concrete bound task whose write succeeds. -/
theorem C2_witness :
    sampleTaskOk.execute = ⟨[(7, Status.SUCCEEDED)], none⟩ :=
  (C2_execute_contains_all_errors sampleTaskOk rfl).1 rfl

/-! ## Claim C6 -/

/-- C6: a task's notification sink fires at most once per execution, and
for a task wired into the queue (notifier bound, as `Impl::enqueue` always
does) exactly once, with a terminal status — `SUCCEEDED` exactly when the
archive write returned normally, `FAILED` otherwise, never `PENDING` or
`UNKNOWN` — the status being a function of the completed write outcome. -/
theorem C6_notification_once_terminal (t : OutputTask) :
    t.execute.notified.length ≤ 1 ∧
    (t.mNotify = true →
      t.execute.notified =
        [(t.mId, writeStatus (t.mArchive.write t.mGrids t.mMetadata))] ∧
      (writeStatus (t.mArchive.write t.mGrids t.mMetadata) = Status.SUCCEEDED ∨
        writeStatus (t.mArchive.write t.mGrids t.mMetadata) = Status.FAILED) ∧
      writeStatus (t.mArchive.write t.mGrids t.mMetadata) ≠ Status.PENDING ∧
      writeStatus (t.mArchive.write t.mGrids t.mMetadata) ≠ Status.UNKNOWN ∧
      (writeStatus (t.mArchive.write t.mGrids t.mMetadata) = Status.SUCCEEDED ↔
        t.mArchive.write t.mGrids t.mMetadata = WriteOutcome.ok)) := by
  constructor
  · rw [execute_notified]
    cases t.mNotify <;> simp
  · intro h
    refine ⟨by rw [execute_notified, if_pos h], ?_, ?_, ?_, ?_⟩ <;>
      cases hw : t.mArchive.write t.mGrids t.mMetadata <;> simp [writeStatus]

/-- Witness for C6 at a concrete bound task whose write fails. -/
theorem C6_witness :
    sampleTaskBad.execute.notified = [(8, Status.FAILED)] :=
  ((C6_notification_once_terminal sampleTaskBad).2 rfl).1

/-! ## Claim C10 -/

/-- C10: submitting one grid through `Queue::writeGrid` is the same
operation as submitting the one-element batch through `Queue::writeGridVec`
— the whole observable result coincides: the same final queue state, the
same observer invocations, and the same allocated task identifier (namely
`mNextId` on success). -/
theorem C10_writeGrid_delegates (q : QImpl) (g : GridCPtr) (a : Archive) (m : MetaMap) :
    q.writeGrid g a m = q.writeGridVec [g] a m ∧
    (q.writeGrid g a m).2.2 = (q.writeGridVec [g] a m).2.2 ∧
    (q.writeGrid g a m).1 = (q.writeGridVec [g] a m).1 ∧
    (q.canEnqueue → (q.writeGrid g a m).2.2 = Except.ok q.mNextId) := by
  refine ⟨rfl, rfl, rfl, fun h => ?_⟩
  simp only [QImpl.writeGrid, QImpl.writeGridVec, QImpl.enqueueSync]
  rw [if_pos (show (QImpl.mk q.mTimeout q.mCapacity q.mNumTasks ((q.mNextId + 1) % 2 ^ 32)
    q.mStatus q.mNotifiers q.mNextNotifierId).canEnqueue from h)]

/-! ## Submission characterization lemmas -/

theorem canEnqueue_nextId (q : QImpl) (n : Nat) :
    ({ q with mNextId := n } : QImpl).canEnqueue ↔ q.canEnqueue := Iff.rfl

theorem writeGridVec_err (q : QImpl) (g : GridCPtrVec) (a : Archive) (m : MetaMap)
    (h : ¬ q.canEnqueue) :
    q.writeGridVec g a m =
      ({ q with mNextId := (q.mNextId + 1) % 2 ^ 32 }, [],
        Except.error (timeoutErrorMsg q.mTimeout)) := by
  simp only [QImpl.writeGridVec, QImpl.enqueueSync]
  rw [if_neg ((not_congr (canEnqueue_nextId q ((q.mNextId + 1) % 2 ^ 32))).mpr h)]

theorem writeGridVec_ok_id (q : QImpl) (g : GridCPtrVec) (a : Archive) (m : MetaMap)
    (h : q.canEnqueue) :
    (q.writeGridVec g a m).2.2 = Except.ok q.mNextId := by
  simp only [QImpl.writeGridVec, QImpl.enqueueSync]
  rw [if_pos ((canEnqueue_nextId q ((q.mNextId + 1) % 2 ^ 32)).mpr h)]

theorem writeGridVec_mNumTasks (q : QImpl) (g : GridCPtrVec) (a : Archive) (m : MetaMap)
    (hlo : -(2 ^ 31) < q.mNumTasks) (hhi : q.mNumTasks < 2 ^ 31) :
    (q.writeGridVec g a m).1.mNumTasks = q.mNumTasks := by
  by_cases h : q.canEnqueue
  · simp only [QImpl.writeGridVec, QImpl.enqueueSync]
    rw [if_pos ((canEnqueue_nextId q ((q.mNextId + 1) % 2 ^ 32)).mpr h)]
    simp only [execute_notified, OutputTask.setNotifier, OutputTask.make, if_pos]
    rw [applyNotifications_single]
    have hterm := writeStatus_terminal (Archive.copy a |>.write g m)
    rw [sswn_mNumTasks_terminal _ _ _ hterm]
    simp only [QImpl.setStatus]
    rw [wrap32_add]
    have harg : q.mNumTasks - 1 + 1 = q.mNumTasks := by omega
    rw [harg]
    exact wrap32_eq_self q.mNumTasks (by omega) hhi
  · rw [writeGridVec_err q g a m h]

theorem writeGridVec_mCapacity (q : QImpl) (g : GridCPtrVec) (a : Archive) (m : MetaMap) :
    (q.writeGridVec g a m).1.mCapacity = q.mCapacity := by
  by_cases h : q.canEnqueue
  · simp only [QImpl.writeGridVec, QImpl.enqueueSync]
    rw [if_pos ((canEnqueue_nextId q ((q.mNextId + 1) % 2 ^ 32)).mpr h)]
    simp only [execute_notified, OutputTask.setNotifier, OutputTask.make, if_pos]
    rw [applyNotifications_single]
    dsimp only
    rw [(sswn_preserves _ _ _).2.2.2.2]
    rfl
  · rw [writeGridVec_err q g a m h]

/-! ## Claim C1 -/

/-- C1 counterexample, refuting "no task identifier is consumed": concrete
scenario with capacity 1, admission timeout 0, and task 1 admitted but not
yet executed (TBB build).  A second submission fails with the admission
error, yet `mNextId` advances from 2 to 3; after the pending task runs and
frees capacity, the next successful submission receives identifier 3 — not
the identifier 2 that the failed submission would have received. -/
theorem C1_cex_identifier_consumed :
    c1FullState.impl.mNextId = 2 ∧
    (c1FullState.writeGridVec [2] okArchive 0).2 =
      Except.error (timeoutErrorMsg 0) ∧
    c1AfterFail.impl.mNextId = 3 ∧
    (c1AfterFree.writeGridVec [3] okArchive 0).2 = Except.ok 3 :=
  ⟨rfl, rfl, rfl, rfl⟩

/-- C1 (amended): when the admission timeout elapses before capacity is
available, `writeGridVec` raises the admission `RuntimeError` to the
caller; no task is created (no status entry, no observer invocation, the
in-flight count, registries and configuration are unchanged) and the queue
remains usable (once capacity allows — here via `setCapacity` — a
subsequent submission succeeds); however the task identifier IS consumed:
`mNextId` has advanced, and the next successful submission receives the
identifier after the one the failed submission burned. -/
theorem C1_admission_timeout_behaviour (q : QImpl) (grids : GridCPtrVec)
    (a : Archive) (m : MetaMap) (h : ¬ q.canEnqueue) :
    (q.writeGridVec grids a m).2.2 = Except.error (timeoutErrorMsg q.mTimeout) ∧
    (q.writeGridVec grids a m).2.1 = [] ∧
    (q.writeGridVec grids a m).1.mStatus = q.mStatus ∧
    (q.writeGridVec grids a m).1.mNumTasks = q.mNumTasks ∧
    (q.writeGridVec grids a m).1.mNotifiers = q.mNotifiers ∧
    (q.writeGridVec grids a m).1.mCapacity = q.mCapacity ∧
    (q.writeGridVec grids a m).1.mTimeout = q.mTimeout ∧
    (q.writeGridVec grids a m).1.mNextId = (q.mNextId + 1) % 2 ^ 32 ∧
    (∀ n : Nat, q.mNumTasks < ((max 1 n : Nat) : Int) →
      ∀ (grids2 : GridCPtrVec) (a2 : Archive) (m2 : MetaMap),
        (((q.writeGridVec grids a m).1.setCapacity n).writeGridVec grids2 a2 m2).2.2 =
          Except.ok ((q.mNextId + 1) % 2 ^ 32)) := by
  rw [writeGridVec_err q grids a m h]
  refine ⟨rfl, rfl, rfl, rfl, rfl, rfl, rfl, rfl, fun n hn grids2 a2 m2 => ?_⟩
  exact writeGridVec_ok_id
    (({ q with mNextId := (q.mNextId + 1) % 2 ^ 32 } : QImpl).setCapacity n)
    grids2 a2 m2 hn

/-- Witness for C1 at the concrete full queue of the counterexample. -/
theorem C1_witness :
    ¬ c1FullState.impl.canEnqueue ∧
    (c1FullState.impl.writeGridVec [9] okArchive 0).2.2 =
      Except.error (timeoutErrorMsg c1FullState.impl.mTimeout) :=
  ⟨by decide,
    (C1_admission_timeout_behaviour c1FullState.impl [9] okArchive 0 (by decide)).1⟩

/-! ## Status query characterization -/

theorem statusQuery_some (q : QImpl) (id : QId) (st : Status)
    (hf : smFind q.mStatus id = some st) :
    q.statusQuery id =
      if st = Status.SUCCEEDED ∨ st = Status.FAILED then
        (st, { q with mStatus := smErase q.mStatus id })
      else (st, q) := by
  unfold QImpl.statusQuery
  rw [hf]

theorem statusQuery_none (q : QImpl) (id : QId) (hf : smFind q.mStatus id = none) :
    q.statusQuery id = (Status.UNKNOWN, q) := by
  unfold QImpl.statusQuery
  rw [hf]

/-! ## Claim C4 -/

/-- C4: `Queue::status(id)` returns the stored status when an entry exists;
if that status is terminal the entry is removed, so the poll after the
first one returns `UNKNOWN`; a `PENDING` entry is returned with the state
untouched; and when no entry exists the answer is `UNKNOWN` with the state
untouched.  (The query is a single map lookup with at most one erase — the
code contains no wait loop of any kind.) -/
theorem C4_status_query (q : QImpl) (id : QId) :
    (∀ st, smFind q.mStatus id = some st →
      (q.statusQuery id).1 = st ∧
      ((st = Status.SUCCEEDED ∨ st = Status.FAILED) →
        (q.statusQuery id).2.mStatus = smErase q.mStatus id ∧
        ((q.statusQuery id).2.statusQuery id).1 = Status.UNKNOWN) ∧
      (st = Status.PENDING → (q.statusQuery id).2 = q)) ∧
    (smFind q.mStatus id = none → q.statusQuery id = (Status.UNKNOWN, q)) := by
  refine ⟨fun st hf => ?_, fun hf => statusQuery_none q id hf⟩
  rw [statusQuery_some q id st hf]
  by_cases hterm : st = Status.SUCCEEDED ∨ st = Status.FAILED
  · rw [if_pos hterm]
    refine ⟨rfl, fun _ => ⟨rfl, ?_⟩, fun hp => by subst hp; simp at hterm⟩
    dsimp only
    rw [statusQuery_none _ id (smFind_smErase q.mStatus id)]
  · rw [if_neg hterm]
    exact ⟨rfl, fun hc => absurd hc hterm, fun _ => rfl⟩

/-- Witness for C4 at the concrete terminal entry of `sampleDone`. -/
theorem C4_witness :
    (sampleDone.statusQuery 1).1 = Status.SUCCEEDED ∧
    ((sampleDone.statusQuery 1).2.statusQuery 1).1 = Status.UNKNOWN := by
  have h := (C4_status_query sampleDone 1).1 Status.SUCCEEDED (by decide)
  exact ⟨h.1, (h.2.1 (Or.inl rfl)).2⟩

/-! ## Claim C5 -/

/-- C5: on a terminal completion, `setStatusWithNotification` removes the
task's status entry iff at least one notifier was registered at fan-out
time: with notifiers present, a poll right after completion returns
`UNKNOWN`; with none present, the terminal entry is retained and a later
poll returns that terminal status once (and `UNKNOWN` afterwards). -/
theorem C5_erase_iff_notified (q : QImpl) (id : QId) (st : Status)
    (h : st = Status.SUCCEEDED ∨ st = Status.FAILED) :
    (smFind (q.setStatusWithNotification id st).1.mStatus id = none ↔
      q.mNotifiers ≠ []) ∧
    (q.mNotifiers ≠ [] →
      ((q.setStatusWithNotification id st).1.statusQuery id).1 = Status.UNKNOWN) ∧
    (q.mNotifiers = [] →
      smFind (q.setStatusWithNotification id st).1.mStatus id = some st ∧
      ((q.setStatusWithNotification id st).1.statusQuery id).1 = st ∧
      (((q.setStatusWithNotification id st).1.statusQuery id).2.statusQuery id).1 =
        Status.UNKNOWN) := by
  have hm := sswn_mStatus_terminal q id st h
  cases hn : q.mNotifiers with
  | nil =>
    rw [hn] at hm
    simp only [List.isEmpty_nil, if_true] at hm
    have hfind : smFind (q.setStatusWithNotification id st).1.mStatus id = some st := by
      rw [hm]
      exact smFind_smInsert q.mStatus id st
    refine ⟨by simp [hfind], fun hne => absurd rfl hne, fun _ => ⟨hfind, ?_, ?_⟩⟩
    · rw [statusQuery_some _ id st hfind, if_pos h]
    · rw [statusQuery_some _ id st hfind, if_pos h]
      dsimp only
      rw [statusQuery_none _ id
        (smFind_smErase (q.setStatusWithNotification id st).1.mStatus id)]
  | cons x xs =>
    rw [hn] at hm
    simp only [List.isEmpty_cons, if_false, Bool.false_eq_true] at hm
    have hfind : smFind (q.setStatusWithNotification id st).1.mStatus id = none := by
      rw [hm]
      exact smFind_smErase _ id
    refine ⟨by simp [hfind], fun _ => ?_, fun heq => by simp at heq⟩
    rw [statusQuery_none _ id hfind]

/-- Witness for C5 at the concrete state `sampleQ` (notifiers 1 and 2
registered, task 1 pending): after a successful completion the first poll
already returns `UNKNOWN`. -/
theorem C5_witness :
    ((sampleQ.setStatusWithNotification 1 Status.SUCCEEDED).1.statusQuery 1).1 =
      Status.UNKNOWN :=
  (C5_erase_iff_notified sampleQ 1 Status.SUCCEEDED (Or.inl rfl)).2.1 (by decide)

/-! ## Claim C3 -/

/-- C3: when a task completes, the fan-out in `setStatusWithNotification`
invokes exactly the notifiers registered at that moment, each exactly once,
with the task identifier and the status, in ascending subscription-id order
(the `std::map` iteration order, a sorted key list here); a notifier
removed with `removeNotifier` — or dropped by `clearNotifiers` — before the
completion is never invoked for it. -/
theorem C3_fanout_order_exactly_once (q : QImpl) (id : QId) (st : Status)
    (hs : List.Sorted (· < ·) q.mNotifiers) :
    (q.setStatusWithNotification id st).2.map NotifyEvent.notifierId = q.mNotifiers ∧
    (∀ e ∈ (q.setStatusWithNotification id st).2, e.taskId = id ∧ e.status = st) ∧
    List.Sorted (· < ·)
      ((q.setStatusWithNotification id st).2.map NotifyEvent.notifierId) ∧
    (∀ nid ∈ q.mNotifiers,
      (q.setStatusWithNotification id st).2.count (⟨nid, id, st⟩ : NotifyEvent) = 1) ∧
    (∀ nid : QId, ∀ e ∈ ((q.removeNotifier nid).setStatusWithNotification id st).2,
      e.notifierId ≠ nid) ∧
    (q.clearNotifiers.setStatusWithNotification id st).2 = [] := by
  have hinj : Function.Injective (fun nid => (⟨nid, id, st⟩ : NotifyEvent)) :=
    fun a b hab => congrArg NotifyEvent.notifierId hab
  simp only [sswn_events]
  refine ⟨?_, ?_, ?_, ?_, ?_, ?_⟩
  · simp [Function.comp_def]
  · intro e he
    simp only [List.mem_map] at he
    obtain ⟨nid, _, rfl⟩ := he
    exact ⟨rfl, rfl⟩
  · simpa [Function.comp_def] using hs
  · intro nid hmem
    rw [List.count_map_of_injective q.mNotifiers _ hinj nid]
    exact List.count_eq_one_of_mem hs.nodup hmem
  · intro nid e he
    simp only [QImpl.removeNotifier, List.mem_map, List.mem_filter,
      decide_eq_true_eq] at he
    obtain ⟨k, ⟨_, hk⟩, rfl⟩ := he
    exact hk
  · simp [QImpl.clearNotifiers]

/-- Witness for C3 at the concrete state `sampleQ` (notifiers 1 and 2):
completion of task 1 with `SUCCEEDED` invokes exactly notifiers 1 and 2,
in that order. -/
theorem C3_witness :
    (sampleQ.setStatusWithNotification 1 Status.SUCCEEDED).2.map
      NotifyEvent.notifierId = [1, 2] :=
  (C3_fanout_order_exactly_once sampleQ 1 Status.SUCCEEDED (by decide)).1

/-! ## Claim C8 -/

theorem enqueuePollLoop_spec (t : Nat) :
    ∀ fuel s, s < 2 * t + 2 → 2 * t + 2 ≤ s + fuel →
      enqueuePollLoop t fuel s = some (2 * t + 2) := by
  intro fuel
  induction fuel with
  | zero => intro s h1 h2; omega
  | succ n ih =>
    intro s h1 h2
    simp only [enqueuePollLoop]
    by_cases hc : 500 * (s + 1) / 1000 > t
    · rw [if_pos hc]
      have hs : s + 1 = 2 * t + 2 := by omega
      rw [hs]
    · rw [if_neg hc]
      exact ih (s + 1) (by omega) (by omega)

/-- C8 counterexample, refuting "no sleep/poll iteration is executed": the
admission-wait loop of `Impl::enqueue` sleeps BEFORE testing the deadline,
and `duration_cast<seconds>` truncates, so with timeout 0 a submission that
finds the queue at capacity performs 2 sleep iterations of 500 ms
(about one second of blocking) before the error is raised — not 0. -/
theorem C8_cex_sleeps_at_timeout_zero :
    sleepsBeforeAdmissionError 0 = some 2 ∧ sleepsBeforeAdmissionError 0 ≠ some 0 := by
  exact ⟨rfl, by decide⟩

/-- C8 (amended): a submission that finds the queue at capacity (with no
concurrent completion releasing it) performs exactly `2*timeout + 2` sleep
iterations of 500 ms before the admission error is raised — the loop body
sleeps first and then throws once the truncated whole-second elapsed time
strictly exceeds the timeout; with timeout 0 that is two sleeps, about one
second of blocking, rather than a purely non-blocking failure. -/
theorem C8_sleep_iterations_before_error (t : Nat) :
    sleepsBeforeAdmissionError t = some (2 * t + 2) :=
  enqueuePollLoop_spec t (2 * t + 2) 0 (by omega) (by omega)

/-! ## Claim C9 -/

/-- C9 counterexample, refuting "capacity() never returns 0": the
constructor `Queue::Queue(Index32 capacity)` stores its argument without
coercion, so a queue constructed with capacity 0 reports `capacity() == 0`
(shown here with default timeout 54 and default capacity 100, which the
constructor overwrites). -/
theorem C9_cex_constructor_capacity_zero :
    (QImpl.construct 54 100 0).capacity = 0 := rfl

/-- C9 (amended): `setCapacity` coerces its argument to at least 1, so the
capacity is positive after any `setCapacity` call; the constructor,
however, stores the given capacity unmodified, so construction with 0
yields capacity 0 until the first `setCapacity`. -/
theorem C9_capacity_coercion (q : QImpl) (n : Nat) :
    (q.setCapacity n).capacity = max 1 n ∧
    1 ≤ (q.setCapacity n).capacity ∧
    (∀ dT dC c : Nat, (QImpl.construct dT dC c).capacity = c) :=
  ⟨rfl, le_max_left 1 n, fun _ _ _ => rfl⟩

/-! ## Trace lemmas for C7 -/

theorem tbb_writeGridVec_ok (s : TbbState) (g : GridCPtrVec) (a : Archive)
    (m : MetaMap) (h : s.impl.canEnqueue) :
    s.writeGridVec g a m =
      ({ impl := { s.impl with
            mNextId := (s.impl.mNextId + 1) % 2 ^ 32,
            mStatus := smInsert s.impl.mStatus s.impl.mNextId Status.PENDING,
            mNumTasks := wrap32 (s.impl.mNumTasks + 1) },
         pending := s.pending ++ [(OutputTask.make s.impl.mNextId g a m).setNotifier] },
        Except.ok s.impl.mNextId) := by
  simp only [TbbState.writeGridVec, QImpl.enqueueTbb]
  rw [if_pos ((canEnqueue_nextId s.impl ((s.impl.mNextId + 1) % 2 ^ 32)).mpr h)]
  exact rfl

theorem tbb_writeGridVec_err (s : TbbState) (g : GridCPtrVec) (a : Archive)
    (m : MetaMap) (h : ¬ s.impl.canEnqueue) :
    s.writeGridVec g a m =
      ({ impl := { s.impl with mNextId := (s.impl.mNextId + 1) % 2 ^ 32 },
         pending := s.pending }, Except.error (timeoutErrorMsg s.impl.mTimeout)) := by
  simp only [TbbState.writeGridVec, QImpl.enqueueTbb]
  rw [if_neg ((not_congr
    (canEnqueue_nextId s.impl ((s.impl.mNextId + 1) % 2 ^ 32))).mpr h)]

theorem runPending_eq (s : TbbState) (i : Nat) (task : OutputTask)
    (hp : s.pending[i]? = some task) (hb : task.mNotify = true) :
    s.runPending i =
      some ({ impl := (s.impl.setStatusWithNotification task.mId
                (writeStatus (task.mArchive.write task.mGrids task.mMetadata))).1,
              pending := s.pending.eraseIdx i },
            (s.impl.setStatusWithNotification task.mId
              (writeStatus (task.mArchive.write task.mGrids task.mMetadata))).2) := by
  simp only [TbbState.runPending]
  rw [hp]
  dsimp only
  rw [execute_notified, hb, if_pos rfl, applyNotifications_single]

theorem statusQuery_snd_mNumTasks (q : QImpl) (id : QId) :
    (q.statusQuery id).2.mNumTasks = q.mNumTasks := by
  unfold QImpl.statusQuery
  cases smFind q.mStatus id with
  | none => rfl
  | some st =>
    dsimp only
    split <;> rfl

theorem statusQuery_snd_mCapacity (q : QImpl) (id : QId) :
    (q.statusQuery id).2.mCapacity = q.mCapacity := by
  unfold QImpl.statusQuery
  cases smFind q.mStatus id with
  | none => rfl
  | some st =>
    dsimp only
    split <;> rfl

theorem applyOp_inv (t : TraceState) (op : QueueOp) (hop : CapacityOk op)
    (h : TraceInv t) : TraceInv (applyOp t op) := by
  obtain ⟨h1, h2, h3, h4, h5, h6⟩ := h
  cases op with
  | submitTbb g a m =>
    by_cases hc : t.s.impl.canEnqueue
    · have hc2 : t.s.impl.mNumTasks < (t.s.impl.mCapacity : Int) := hc
      simp only [applyOp, tbb_writeGridVec_ok t.s g a m hc]
      refine ⟨by dsimp only; omega, ?_, ?_, ?_, by dsimp only; omega,
        by dsimp only; omega⟩
      · dsimp only
        rw [wrap32_eq_self _ (by omega) (by omega)]
        omega
      · simp only [List.length_append, List.length_singleton]
        omega
      · intro task htask
        rcases List.mem_append.mp htask with hin | hone
        · exact h4 task hin
        · rw [List.mem_singleton.mp hone]
          rfl
    · simp only [applyOp, tbb_writeGridVec_err t.s g a m hc]
      exact ⟨h1, h2, h3, h4, h5, h6⟩
  | submitSync g a m =>
    have hcnt := writeGridVec_mNumTasks t.s.impl g a m (by omega) (by omega)
    have hcap := writeGridVec_mCapacity t.s.impl g a m
    cases hr : (t.s.impl.writeGridVec g a m).2.2 with
    | ok idv =>
      simp only [applyOp, hr]
      exact ⟨by dsimp only; omega, by dsimp only; omega, by dsimp only; omega, h4,
        by dsimp only; omega, by dsimp only; omega⟩
    | error e =>
      simp only [applyOp, hr]
      exact ⟨h1, by dsimp only; omega, h3, h4, h5, by dsimp only; omega⟩
  | runTask i =>
    cases hp : t.s.pending[i]? with
    | none =>
      simp only [applyOp, TbbState.runPending, hp]
      exact ⟨h1, h2, h3, h4, h5, h6⟩
    | some task =>
      have hmem : task ∈ t.s.pending := by
        obtain ⟨hlt, he⟩ := List.getElem?_eq_some.mp hp
        exact he ▸ List.getElem_mem hlt
      have hlt : i < t.s.pending.length := (List.getElem?_eq_some.mp hp).1
      have hterm := writeStatus_terminal (task.mArchive.write task.mGrids task.mMetadata)
      have hcnt := sswn_mNumTasks_terminal t.s.impl task.mId _ hterm
      have hcap := (sswn_preserves t.s.impl task.mId
        (writeStatus (task.mArchive.write task.mGrids task.mMetadata))).2.2.2.2
      simp only [applyOp, runPending_eq t.s i task hp (h4 task hmem)]
      have hlen := List.length_eraseIdx_add_one hlt
      refine ⟨by dsimp only; omega, ?_, by dsimp only; omega, ?_,
        by dsimp only; omega, by dsimp only; omega⟩
      · dsimp only
        rw [hcnt, wrap32_eq_self _ (by omega) (by omega)]
        omega
      · intro x hx
        exact h4 x (List.mem_of_mem_eraseIdx hx)
  | query id =>
    refine ⟨h1, ?_, h3, h4, h5, ?_⟩
    · dsimp only [applyOp]
      rw [statusQuery_snd_mNumTasks, h2]
    · dsimp only [applyOp]
      rw [statusQuery_snd_mCapacity]
      exact h6
  | subscribe => exact ⟨h1, h2, h3, h4, h5, h6⟩
  | unsubscribe id => exact ⟨h1, h2, h3, h4, h5, h6⟩
  | clearSubs => exact ⟨h1, h2, h3, h4, h5, h6⟩
  | reconfigureCapacity n =>
    have hop2 : n ≤ 2 ^ 31 - 1 := hop
    refine ⟨h1, h2, h3, h4, h5, ?_⟩
    show max 1 n ≤ 2 ^ 31 - 1
    omega
  | reconfigureTimeout sec => exact ⟨h1, h2, h3, h4, h5, h6⟩

theorem foldl_applyOp_inv (ops : List QueueOp) :
    ∀ t : TraceState, (∀ op ∈ ops, CapacityOk op) → TraceInv t →
      TraceInv (ops.foldl applyOp t) := by
  induction ops with
  | nil => intro t _ h; exact h
  | cons op rest ih =>
    intro t hops h
    exact ih _ (fun o ho => hops o (List.mem_cons_of_mem op ho))
      (applyOp_inv t op (hops op (List.mem_cons_self op rest)) h)

theorem runOps_inv (defaultTimeout defaultCapacity capacity : Nat)
    (ops : List QueueOp) (hcap : capacity ≤ 2 ^ 31 - 1)
    (hops : ∀ op ∈ ops, CapacityOk op) :
    TraceInv (runOps defaultTimeout defaultCapacity capacity ops) := by
  refine foldl_applyOp_inv ops _ hops ⟨Nat.le_refl 0, rfl, rfl, ?_, ?_, hcap⟩
  · intro task htask
    simp at htask
  · dsimp only
    omega

theorem applyOp_c7Submit (t : TraceState) (hc : t.s.impl.canEnqueue) :
    (applyOp t c7SubmitOp).s.impl.mNumTasks = wrap32 (t.s.impl.mNumTasks + 1) ∧
    (applyOp t c7SubmitOp).s.impl.mCapacity = t.s.impl.mCapacity ∧
    (applyOp t c7SubmitOp).admitted = t.admitted + 1 ∧
    (applyOp t c7SubmitOp).completed = t.completed := by
  simp only [c7SubmitOp, applyOp, tbb_writeGridVec_ok t.s [] okArchive 0 hc]
  exact ⟨trivial, trivial, trivial, trivial⟩

theorem replicate_submit_wrap :
    ∀ (n : Nat) (t : TraceState), t.s.impl.mCapacity = 2 ^ 31 →
      -(2 ^ 31) ≤ t.s.impl.mNumTasks → t.s.impl.mNumTasks < 2 ^ 31 →
      ((List.replicate n c7SubmitOp).foldl applyOp t).s.impl.mNumTasks =
          wrap32 (t.s.impl.mNumTasks + n) ∧
      ((List.replicate n c7SubmitOp).foldl applyOp t).admitted = t.admitted + n ∧
      ((List.replicate n c7SubmitOp).foldl applyOp t).completed = t.completed := by
  intro n
  induction n with
  | zero =>
    intro t hcap hlo hhi
    refine ⟨?_, ?_, ?_⟩ <;> simp only [List.replicate_zero, List.foldl_nil]
    · have harg : t.s.impl.mNumTasks + ((0 : Nat) : Int) = t.s.impl.mNumTasks := by
        push_cast
        ring
      rw [harg]
      exact (wrap32_eq_self _ hlo hhi).symm
    · omega
  | succ k ih =>
    intro t hcap hlo hhi
    rw [List.replicate_succ, List.foldl_cons]
    have hc : t.s.impl.canEnqueue := by
      show t.s.impl.mNumTasks < (t.s.impl.mCapacity : Int)
      rw [hcap]
      push_cast
      omega
    obtain ⟨e1, e2, e3, e4⟩ := applyOp_c7Submit t hc
    obtain ⟨ih1, ih2, ih3⟩ := ih (applyOp t c7SubmitOp)
      (by rw [e2]; exact hcap)
      (by rw [e1]; exact wrap32_lb _)
      (by rw [e1]; exact wrap32_lt _)
    refine ⟨?_, ?_, by rw [ih3, e4]⟩
    · rw [ih1, e1, wrap32_add]
      congr 1
      push_cast
      ring
    · rw [ih2, e3]
      omega

/-! ## Claim C7 -/

/-- C7 counterexample, refuting the claim for unrestricted capacities: the
in-flight counter is a wrapping `std::atomic<Int32>`, while `setCapacity`
accepts any `Index32`.  After `setCapacity(2^31)` every admission succeeds
(the signed counter is always below `Int64(mCapacity) = 2^31`), so `2^31`
admissions wrap the counter to `-2^31`; `size()` then clamps to 0, which is
not admitted minus completed (`2^31`). -/
theorem C7_cex_int32_wraparound :
    (runOps 0 1 1 c7Ops).s.impl.size ≠
      (runOps 0 1 1 c7Ops).admitted - (runOps 0 1 1 c7Ops).completed := by
  have hrw : runOps 0 1 1 c7Ops =
      (List.replicate (2 ^ 31) c7SubmitOp).foldl applyOp c7Start := by
    unfold runOps c7Ops c7Start
    rw [List.foldl_cons]
  obtain ⟨hc, ha, hcm⟩ := replicate_submit_wrap (2 ^ 31) c7Start
    (by decide) (by decide) (by decide)
  rw [hrw]
  unfold QImpl.size
  rw [hc, ha, hcm]
  decide

/-- C7 (amended): as long as every configured capacity fits in `Int32`
(the initial capacity and every `setCapacity` argument at most `2^31 - 1`),
the `Int32` in-flight counter cannot wrap, and along every trace of queue
operations — TBB-build submissions, scheduler completions,
synchronous-build submissions (whose inline completion decrements the
counter before the admission increment, the two cancelling), status polls,
notifier management and reconfiguration — `Queue::size()` equals the number
of tasks admitted minus the number completed, and the counter is never
negative at any caller-observable point.  With a capacity of `2^31` or
more the counter can wrap and the equation fails (see the counterexample). -/
theorem C7_size_invariant_bounded_capacity (dT dC cap : Nat) (ops : List QueueOp)
    (hcap : cap ≤ 2 ^ 31 - 1) (hops : ∀ op ∈ ops, CapacityOk op) :
    (runOps dT dC cap ops).s.impl.size =
      (runOps dT dC cap ops).admitted - (runOps dT dC cap ops).completed ∧
    (runOps dT dC cap ops).completed ≤ (runOps dT dC cap ops).admitted ∧
    (runOps dT dC cap ops).s.impl.mNumTasks =
      ((runOps dT dC cap ops).admitted : Int) -
        ((runOps dT dC cap ops).completed : Int) ∧
    0 ≤ (runOps dT dC cap ops).s.impl.mNumTasks := by
  obtain ⟨h1, h2, h3, _, _, _⟩ := runOps_inv dT dC cap ops hcap hops
  refine ⟨?_, h1, h2, by omega⟩
  unfold QImpl.size
  omega

/-- Witness for C7 at a concrete in-bounds trace: capacity 1, one TBB-build
admission, one synchronous submission (which times out at capacity), then
the scheduler runs the pending task. -/
theorem C7_witness :
    (runOps 0 1 1 [QueueOp.submitTbb [1] okArchive 0,
        QueueOp.submitSync [2] okArchive 0, QueueOp.runTask 0]).s.impl.size =
      (runOps 0 1 1 [QueueOp.submitTbb [1] okArchive 0,
        QueueOp.submitSync [2] okArchive 0, QueueOp.runTask 0]).admitted -
      (runOps 0 1 1 [QueueOp.submitTbb [1] okArchive 0,
        QueueOp.submitSync [2] okArchive 0, QueueOp.runTask 0]).completed :=
  (C7_size_invariant_bounded_capacity 0 1 1
    [QueueOp.submitTbb [1] okArchive 0, QueueOp.submitSync [2] okArchive 0,
      QueueOp.runTask 0] (by omega) (by decide)).1

/-- Witness for C10 at the concrete state `sampleQ` (capacity available,
next task identifier 2). -/
theorem C10_witness :
    (sampleQ.writeGrid 5 okArchive 0).2.2 = Except.ok 2 :=
  (C10_writeGrid_delegates sampleQ 5 okArchive 0).2.2.2 (by decide)
